import Mathlib

/-!
Shallow embedding of the collection storage layer in
`src/src/mongo/db/catalog/collection_impl.cpp` (class `CollectionImpl`):
document validation (`checkValidation`), the update path (`updateDocument`),
the insert path (`insertDocuments` / `_insertDocuments`), the capped-collection
eviction pass (`_cappedDeleteAsNeeded`) and the two-slot generation table of
`CollectionImpl::SharedState` (`instanceCreated` / `instanceDeleted`).

Modelling conventions, mirrored statement for statement from the C++:
* BSON documents are reduced to the fields this layer inspects: the optional
  `_id` element (an `Option Int`, `none` standing for `eoo()`), the byte size
  `objsize`, and an opaque `payload` that compiled validator predicates may
  inspect.  A compiled `MatchExpression` is an arbitrary total function
  `BsonObj → Bool` (`matchesBSON`); exception-throwing match expressions are
  out of scope of this embedding.
* `Status` values are `Option ErrorCode` (`none` = `Status::OK()`); functions
  that in C++ `uassert` instead return the thrown code explicitly.
* The record store, the index catalog and the oplog observer are folded into
  one explicit `Store` value that every write threads through; fail points are
  modelled in their disabled state, and log-only effects are dropped.
* `OperationContext` is reduced to the flags this file's control flow reads.
-/

/-- The validation levels of `ValidationLevelEnum`. -/
inductive ValidationLevelEnum where
  | off
  | strict
  | moderate
  deriving DecidableEq, Repr

/-- The validation actions of `ValidationActionEnum`. -/
inductive ValidationActionEnum where
  | error
  | warn
  deriving DecidableEq, Repr

/-- `validationLevelOrDefault`: an unset level defaults to `strict`. -/
def validationLevelOrDefault (level : Option ValidationLevelEnum) : ValidationLevelEnum :=
  level.getD .strict

/-- `validationActionOrDefault`: an unset action defaults to `error`. -/
def validationActionOrDefault (action : Option ValidationActionEnum) : ValidationActionEnum :=
  action.getD .error

/-- The error codes this slice of `collection_impl.cpp` can produce.
`numbered n` stands for the plain numeric codes passed to `uasserted`
(13596 for the `_id` mismatch, 10089 for a delete on a capped collection);
`validatorParseFailure tag` stands for the non-OK compile `Status` a
malformed persisted validator carries (distinct `tag`s for distinct
statuses); `documentValidationFailure detailed` covers both the
`DocumentValidationFailureInfo`-carrying form (FCV ≥ 4.7) and the bare
`DocumentValidationFailure` code. -/
inductive ErrorCode where
  | internalError
  | operationCannotBeBatched
  | cannotGrowDocumentInCappedNamespace
  | documentValidationFailure (detailed : Bool)
  | apiStrictError
  | apiDeprecationError
  | numbered (n : Nat)
  | validatorParseFailure (tag : Nat)
  deriving DecidableEq, Repr

/-- A BSON document as seen by this layer: its `_id` element (`none` = `eoo()`),
its byte size `objsize()`, and an opaque payload that validator predicates
may inspect. -/
structure BsonObj where
  id_ : Option Int
  objsize : Nat
  payload : Int
  deriving DecidableEq, Repr

/-- `Collection::Validator`: the compile result stored on the collection.
`ok none` is an empty validator (null `filter`), `ok (some f)` a successfully
compiled `MatchExpression`, and `err tag` a stored non-OK parse `Status`
(persisted validators from older versions must remain loadable, so the
failure is data, not an exception). -/
inductive ValidatorCompile where
  | ok (filter : Option (BsonObj → Bool))
  | err (tag : Nat)

/-- The per-generation collection state read by the functions embedded here. -/
structure Coll where
  validator : ValidatorCompile
  validationLevel : Option ValidationLevelEnum
  validationAction : Option ValidationActionEnum
  isCapped : Bool
  cappedMaxSize : Int
  cappedMaxDocs : Int
  oplogSelfManagedTruncation : Bool
  hasIdIndex : Bool
  haveAnyIndexes : Bool
  isClustered : Bool
  nsIsTempResharding : Bool
  exprUnstableForApiV1 : Bool
  exprDeprecatedForApiV1 : Bool

/-- The `OperationContext` flags read by the embedded control flow. -/
structure OpCtx where
  schemaValidationDisabled : Bool
  apiStrict : Bool
  apiDeprecationErrors : Bool
  apiVersionIs1 : Bool
  fcvAtLeast47 : Bool
  fcvAtLeast50 : Bool
  enforcingConstraints : Bool
  needsSizeAdjustment : Bool
  deriving DecidableEq, Repr

/-- `CollectionImpl::checkValidatorAPIVersionCompatability` (lines 445-462):
reached only when a compiled filter (and hence its `ExpressionContext`)
exists. -/
def checkValidatorAPIVersionCompatability (ctx : OpCtx) (c : Coll) : Option ErrorCode :=
  if ctx.apiStrict && ctx.apiVersionIs1 && c.exprUnstableForApiV1 then
    some .apiStrictError
  else if ctx.apiDeprecationErrors && ctx.apiVersionIs1 && c.exprDeprecatedForApiV1 then
    some .apiDeprecationError
  else
    none

/-- `CollectionImpl::checkValidation` (lines 464-533).  The branch order is the
source's: the non-OK compile status is returned first, before the null-filter,
level-off, validation-disabled and resharding short-circuits. -/
def checkValidation (ctx : OpCtx) (c : Coll) (document : BsonObj) : Option ErrorCode :=
  match c.validator with
  | .err tag => some (.validatorParseFailure tag)
  | .ok none => none
  | .ok (some matchExpr) =>
    if validationLevelOrDefault c.validationLevel = .off then none
    else if ctx.schemaValidationDisabled then none
    else if c.nsIsTempResharding then none
    else
      match checkValidatorAPIVersionCompatability ctx c with
      | some e => some e
      | none =>
        if matchExpr document then none
        else if validationActionOrDefault c.validationAction = .warn then none
        else some (.documentValidationFailure ctx.fcvAtLeast47)

/-- The validation block at the head of `CollectionImpl::updateDocument`
(lines 1090-1104): a non-OK result on the new document aborts at level
`strict`; otherwise the old document is re-checked and only a currently
failing old document lets the update proceed (bad → bad is allowed in
moderate mode, good → bad never is). -/
def updateValidationGate (ctx : OpCtx) (c : Coll) (oldDoc newDoc : BsonObj) :
    Option ErrorCode :=
  match checkValidation ctx c newDoc with
  | none => none
  | some status =>
    if validationLevelOrDefault c.validationLevel = .strict then some status
    else
      match checkValidation ctx c oldDoc with
      | none => some status
      | some _ => none

/-- A stored record: its `RecordId` and document bytes.  `record->data.size()`
is `doc.objsize`. -/
structure Rec where
  rid : Int
  doc : BsonObj
  deriving DecidableEq, Repr

/-- One index-catalog mutation, as issued by the write paths. -/
inductive IndexOp where
  | indexRecords (recs : List Rec)
  | updateRecord (oldDoc newDoc : BsonObj) (loc : Int)
  | unindexRecord (doc : BsonObj) (loc : Int)
  deriving DecidableEq, Repr

/-- The mutable storage a collection's writes thread through: the record store
contents in forward cursor order, the engine's next surrogate `RecordId`, the
persisted capped-delete resume hint `_cappedFirstRecord` (`none` = null
`RecordId`), and the trail of index-catalog mutations (newest first). -/
structure Store where
  records : List Rec
  nextRecordId : Int
  cappedFirstRecord : Option Int
  indexOps : List IndexOp
  deriving DecidableEq, Repr

/-- `RecordStore::dataSize`: the store's total document bytes. -/
def dataSize (st : Store) : Int :=
  (st.records.map (fun r => (r.doc.objsize : Int))).sum

/-- `RecordStore::numRecords`. -/
def numRecords (st : Store) : Int :=
  st.records.length

/-- The `_id` mismatch test of `CollectionImpl::updateDocument` (lines
1120-1122): `!oldId.eoo() && oldId != newDoc[\x22_id\x22]` — skipped entirely when
the old document has no `_id` element. -/
def idMismatch (oldDoc newDoc : BsonObj) : Bool :=
  match oldDoc.id_ with
  | none => false
  | some oldId => decide (newDoc.id_ ≠ some oldId)

/-- `CollectionImpl::updateDocument` (lines 1083-1172): the validation gate,
then the `_id` mismatch check (`uasserted(13596, ...)`), then the capped
size-change check (`CannotGrowDocumentInCappedNamespace`), and only then the
record-store update, the index update (when `indexesAffected`) and the
observer notification.  Returns the thrown code or the returned `RecordId`,
paired with the store as left at return time. -/
def updateDocument (ctx : OpCtx) (c : Coll) (st : Store) (oldLocation : Int)
    (oldDoc newDoc : BsonObj) (indexesAffected : Bool) :
    Except ErrorCode Int × Store :=
  match updateValidationGate ctx c oldDoc newDoc with
  | some e => (.error e, st)
  | none =>
    if idMismatch oldDoc newDoc then
      (.error (.numbered 13596), st)
    else if c.isCapped && decide (oldDoc.objsize ≠ newDoc.objsize) then
      (.error .cannotGrowDocumentInCappedNamespace, st)
    else
      let afterRecord :=
        { st with
          records := st.records.map fun r =>
            if r.rid = oldLocation then { r with doc := newDoc } else r }
      let afterIndexes :=
        if indexesAffected then
          { afterRecord with
            indexOps := .updateRecord oldDoc newDoc oldLocation :: afterRecord.indexOps }
        else afterRecord
      (.ok oldLocation, afterIndexes)

/-- `CollectionImpl::_cappedAndNeedDelete` (lines 832-851).
`oplogSelfManagedTruncation` stands for
`ns().isOplog() && _recordStore->selfManagedOplogTruncation()`. -/
def cappedAndNeedDelete (c : Coll) (st : Store) : Bool :=
  if !c.isCapped then false
  else if c.oplogSelfManagedTruncation then false
  else if dataSize st > c.cappedMaxSize then true
  else if c.cappedMaxDocs ≠ 0 ∧ numRecords st > c.cappedMaxDocs then true
  else false

/-- The deletion loop of `CollectionImpl::_cappedDeleteAsNeeded` (lines
926-973): `while (sizeSaved < sizeOverCap || docsRemoved < docsOverCap)`,
breaking when the cursor is exhausted or the candidate is the record the
triggering write just inserted, else accumulating the candidate's size and
count and deleting it.  Returns the deleted records (in deletion order) and
the remaining cursor stream, whose head is the resume position the pass
persists.  Storage write conflicts are outside this pure embedding. -/
def cappedLoop (sizeOverCap docsOverCap justInserted : Int) :
    Int → Int → List Rec → List Rec × List Rec
  | _, _, [] => ([], [])
  | sizeSaved, docsRemoved, r :: rest =>
    if sizeSaved < sizeOverCap ∨ docsRemoved < docsOverCap then
      if r.rid = justInserted then ([], r :: rest)
      else
        let p := cappedLoop sizeOverCap docsOverCap justInserted
          (sizeSaved + (r.doc.objsize : Int)) (docsRemoved + 1) rest
        (r :: p.1, p.2)
    else ([], r :: rest)

/-- The outcome of one `_cappedDeleteAsNeeded` call: the store as left by the
pass, the records it deleted, and the rollback hooks it registered with
`opCtx->recoveryUnit()->onRollback`. -/
structure CappedDeleteResult where
  st : Store
  deleted : List Rec
  onRollback : List (Store → Store)

/-- The body of `CollectionImpl::_cappedDeleteAsNeeded` past its early
returns (lines 892-991): compute the over-cap amounts, `seekExact` to the
`_cappedFirstRecord` resume position when one is cached (an empty suffix
models `seekExact` finding nothing), run the deletion loop, persist the next
resume position, and register the `onRollback` hook that clears
`_cappedFirstRecord`.  Per deleted record the index catalog's
`unindexRecord` is issued; the capped-deleter mutex, the side transaction of
the old behaviour and the oplog observer calls are not modelled. -/
def cappedDeletePass (c : Coll) (justInserted : Int) (st : Store) : CappedDeleteResult :=
  let currentDataSize := dataSize st
  let currentNumRecords := numRecords st
  let sizeOverCap :=
    if currentDataSize > c.cappedMaxSize then currentDataSize - c.cappedMaxSize else 0
  let docsOverCap :=
    if c.cappedMaxDocs ≠ 0 ∧ currentNumRecords > c.cappedMaxDocs then
      currentNumRecords - c.cappedMaxDocs
    else 0
  let candidates :=
    match st.cappedFirstRecord with
    | some rid => st.records.dropWhile (fun r => !(r.rid == rid))
    | none => st.records
  let p := cappedLoop sizeOverCap docsOverCap justInserted 0 0 candidates
  let deletedIds := p.1.map Rec.rid
  let newResume := match p.2 with | [] => none | r :: _ => some r.rid
  ⟨{ records := st.records.filter (fun r => !(deletedIds.contains r.rid)),
     nextRecordId := st.nextRecordId,
     cappedFirstRecord := newResume,
     indexOps := (p.1.map (fun r => IndexOp.unindexRecord r.doc r.rid)).reverse
       ++ st.indexOps },
   p.1,
   [fun s => { s with cappedFirstRecord := none }]⟩

/-- The early-return guards of `CollectionImpl::_cappedDeleteAsNeeded` (lines
855-890) wrapped around the pass body above. -/
def cappedDeleteAsNeeded (ctx : OpCtx) (c : Coll) (justInserted : Int) (st : Store) :
    CappedDeleteResult :=
  if !(cappedAndNeedDelete c st) then ⟨st, [], []⟩
  else
    let useOldCappedDeleteBehaviour := !ctx.fcvAtLeast50
    if !useOldCappedDeleteBehaviour && !ctx.enforcingConstraints then ⟨st, [], []⟩
    else if useOldCappedDeleteBehaviour && !ctx.needsSizeAdjustment then ⟨st, [], []⟩
    else cappedDeletePass c justInserted st

/-- The per-document pre-check loop of `CollectionImpl::insertDocuments`
(lines 624-635): reject a document without `_id` when an `_id` index exists
(`ErrorCodes::InternalError`, \x22got document without _id\x22), then run
`checkValidation`; the first failure returns before any record is written. -/
def insertPreChecks (ctx : OpCtx) (c : Coll) : List BsonObj → Option ErrorCode
  | [] => none
  | d :: rest =>
    if c.hasIdIndex ∧ d.id_ = none then some .internalError
    else
      match checkValidation ctx c d with
      | some e => some e
      | none => insertPreChecks ctx c rest

/-- `RecordId` assignment in `CollectionImpl::_insertDocuments` (lines
775-793): clustered collections derive the key from the document
(`record_id_helpers::keyForDoc`, modelled from the `_id` element), others
receive engine-assigned surrogate ids. -/
def assignRecordIds (c : Coll) : Int → List BsonObj → List Rec
  | _, [] => []
  | nextId, d :: rest =>
    if c.isClustered then ⟨d.id_.getD 0, d⟩ :: assignRecordIds c nextId rest
    else ⟨nextId, d⟩ :: assignRecordIds c (nextId + 1) rest

/-- The outcome of an insert call: its `Status` (`none` = OK), the store as
left at return, and the rollback hooks registered along the way. -/
structure InsertResult where
  status : Option ErrorCode
  st : Store
  onRollback : List (Store → Store)

/-- `CollectionImpl::_insertDocuments` (lines 745-830): refuse multi-document
batches on capped collections with indexes before touching the store, then
assign record ids, bulk-insert the records, index them, notify the observer
(not modelled) and run the capped eviction keyed off the batch's first
record id (`records.begin()->id`).  An empty batch performs no eviction. -/
def _insertDocuments (ctx : OpCtx) (c : Coll) (st : Store) (docs : List BsonObj) :
    InsertResult :=
  if c.isCapped && c.haveAnyIndexes && decide (1 < docs.length) then
    ⟨some .operationCannotBeBatched, st, []⟩
  else
    let recs := assignRecordIds c st.nextRecordId docs
    let afterRecords :=
      { st with
        records := st.records ++ recs,
        nextRecordId := st.nextRecordId + (docs.length : Int) }
    let afterIndexes :=
      { afterRecords with indexOps := .indexRecords recs :: afterRecords.indexOps }
    match recs with
    | [] => ⟨none, afterIndexes, []⟩
    | r0 :: _ =>
      let ev := cappedDeleteAsNeeded ctx c r0.rid afterIndexes
      ⟨none, ev.st, ev.onRollback⟩

/-- `CollectionImpl::insertDocuments` (lines 610-674): the per-document
pre-checks run over the whole batch before `_insertDocuments` writes
anything (the `failCollectionInserts` and `hangAfterCollectionInserts` fail
points are modelled in their disabled state). -/
def insertDocuments (ctx : OpCtx) (c : Coll) (st : Store) (docs : List BsonObj) :
    InsertResult :=
  match insertPreChecks ctx c docs with
  | some e => ⟨some e, st, []⟩
  | none => _insertDocuments ctx c st docs

/-- The two-slot generation table of `CollectionImpl::SharedState`:
`_collectionLatest` and `_collectionPrev`, holding raw pointers to the
latest and second-newest `CollectionImpl` generations (`none` = `nullptr`).
Generations are identified by their pointer, modelled as a `Nat`. -/
structure GenerationTable where
  collectionLatest : Option Nat
  collectionPrev : Option Nat
  deriving DecidableEq, Repr

/-- `CollectionImpl::SharedState::instanceCreated` (lines 262-265): the
current latest moves to previous, the new clone becomes latest. -/
def instanceCreated (t : GenerationTable) (collection : Nat) : GenerationTable :=
  ⟨some collection, t.collectionLatest⟩

/-- `CollectionImpl::SharedState::instanceDeleted` (lines 266-282): clear the
previous slot when the deleted generation occupies it, then demote latest to
the (possibly just-cleared) previous slot when the deleted generation was
latest; a generation in neither slot leaves the table untouched. -/
def instanceDeleted (t : GenerationTable) (collection : Nat) : GenerationTable :=
  let prevAfter := if t.collectionPrev = some collection then none else t.collectionPrev
  let latestAfter :=
    if t.collectionLatest = some collection then prevAfter else t.collectionLatest
  ⟨latestAfter, prevAfter⟩

/-- Total byte size of a list of records, as the deletion loop accumulates it
into `sizeSaved`. -/
def recSizeSum (l : List Rec) : Int :=
  (l.map (fun r => (r.doc.objsize : Int))).sum

/-- The stopping condition of the capped deletion loop, read off the loop
head and its two `break`s: both over-cap amounts satisfied, or the cursor
exhausted, or the next candidate is the just-inserted record. -/
def evictionStopState (sizeOverCap docsOverCap justInserted sizeSaved docsRemoved : Int)
    (recs : List Rec) : Prop :=
  (sizeOverCap ≤ sizeSaved ∧ docsOverCap ≤ docsRemoved) ∨ recs = [] ∨
    (∃ r rest, recs = r :: rest ∧ r.rid = justInserted)

instance (sizeOverCap docsOverCap justInserted sizeSaved docsRemoved : Int)
    (recs : List Rec) :
    Decidable (evictionStopState sizeOverCap docsOverCap justInserted sizeSaved
      docsRemoved recs) := by
  unfold evictionStopState
  cases recs with
  | nil => exact .isTrue (Or.inr (Or.inl rfl))
  | cons r rest =>
    refine decidable_of_iff
      ((sizeOverCap ≤ sizeSaved ∧ docsOverCap ≤ docsRemoved) ∨ r.rid = justInserted) ?_
    constructor
    · rintro (h | h)
      · exact Or.inl h
      · exact Or.inr (Or.inr ⟨r, rest, rfl, h⟩)
    · rintro (h | h | ⟨r', rest', heq, hrid⟩)
      · exact Or.inl h
      · exact absurd h (List.cons_ne_nil r rest)
      · cases heq
        exact Or.inr hrid

theorem recSizeSum_nil : recSizeSum [] = 0 := rfl

theorem recSizeSum_cons (r : Rec) (l : List Rec) :
    recSizeSum (r :: l) = (r.doc.objsize : Int) + recSizeSum l := by
  simp [recSizeSum]

/-- Full characterisation of the capped deletion loop: the deleted records are
a prefix of the candidate stream, none of them is the just-inserted record,
the final state satisfies the stopping condition, and no strictly earlier
iteration did (the loop stops exactly at the stopping condition). -/
theorem cappedLoop_spec (sizeOverCap docsOverCap justInserted : Int) :
    ∀ (recs : List Rec) (sizeSaved docsRemoved : Int),
      (cappedLoop sizeOverCap docsOverCap justInserted sizeSaved docsRemoved recs).1 ++
        (cappedLoop sizeOverCap docsOverCap justInserted sizeSaved docsRemoved recs).2 =
        recs ∧
      (∀ r ∈ (cappedLoop sizeOverCap docsOverCap justInserted sizeSaved docsRemoved recs).1,
        r.rid ≠ justInserted) ∧
      evictionStopState sizeOverCap docsOverCap justInserted
        (sizeSaved +
          recSizeSum (cappedLoop sizeOverCap docsOverCap justInserted sizeSaved docsRemoved
            recs).1)
        (docsRemoved +
          ((cappedLoop sizeOverCap docsOverCap justInserted sizeSaved docsRemoved
            recs).1.length : Int))
        (cappedLoop sizeOverCap docsOverCap justInserted sizeSaved docsRemoved recs).2 ∧
      ∀ k : Nat,
        k < (cappedLoop sizeOverCap docsOverCap justInserted sizeSaved docsRemoved
          recs).1.length →
        ¬ evictionStopState sizeOverCap docsOverCap justInserted
          (sizeSaved +
            recSizeSum ((cappedLoop sizeOverCap docsOverCap justInserted sizeSaved docsRemoved
              recs).1.take k))
          (docsRemoved + (k : Int)) (recs.drop k) := by
  intro recs
  induction recs with
  | nil =>
    intro sizeSaved docsRemoved
    refine ⟨rfl, ?_, ?_, ?_⟩
    · intro r hr
      simp [cappedLoop] at hr
    · exact Or.inr (Or.inl rfl)
    · intro k hk
      simp [cappedLoop] at hk
  | cons r rest ih =>
    intro sizeSaved docsRemoved
    by_cases hcond : sizeSaved < sizeOverCap ∨ docsRemoved < docsOverCap
    · by_cases hjust : r.rid = justInserted
      · have hres :
            cappedLoop sizeOverCap docsOverCap justInserted sizeSaved docsRemoved (r :: rest) =
              ([], r :: rest) := by
          simp only [cappedLoop]
          rw [if_pos hcond, if_pos hjust]
        rw [hres]
        refine ⟨rfl, by simp, Or.inr (Or.inr ⟨r, rest, rfl, hjust⟩), ?_⟩
        intro k hk
        simp at hk
      · obtain ⟨ih1, ih2, ih3, ih4⟩ :=
          ih (sizeSaved + (r.doc.objsize : Int)) (docsRemoved + 1)
        have hres :
            cappedLoop sizeOverCap docsOverCap justInserted sizeSaved docsRemoved (r :: rest) =
              (r :: (cappedLoop sizeOverCap docsOverCap justInserted
                  (sizeSaved + (r.doc.objsize : Int)) (docsRemoved + 1) rest).1,
                (cappedLoop sizeOverCap docsOverCap justInserted
                  (sizeSaved + (r.doc.objsize : Int)) (docsRemoved + 1) rest).2) := by
          simp only [cappedLoop]
          rw [if_pos hcond, if_neg hjust]
        rw [hres]
        refine ⟨?_, ?_, ?_, ?_⟩
        · simpa using ih1
        · intro x hx
          rcases List.mem_cons.mp hx with h | h
          · subst h
            exact hjust
          · exact ih2 x h
        · have e1 :
              sizeSaved + recSizeSum (r :: (cappedLoop sizeOverCap docsOverCap justInserted
                  (sizeSaved + (r.doc.objsize : Int)) (docsRemoved + 1) rest).1) =
                (sizeSaved + (r.doc.objsize : Int)) +
                  recSizeSum (cappedLoop sizeOverCap docsOverCap justInserted
                    (sizeSaved + (r.doc.objsize : Int)) (docsRemoved + 1) rest).1 := by
            rw [recSizeSum_cons]
            ring
          have e2 :
              docsRemoved + (((r :: (cappedLoop sizeOverCap docsOverCap justInserted
                  (sizeSaved + (r.doc.objsize : Int)) (docsRemoved + 1) rest).1).length : Nat) :
                  Int) =
                (docsRemoved + 1) +
                  (((cappedLoop sizeOverCap docsOverCap justInserted
                    (sizeSaved + (r.doc.objsize : Int)) (docsRemoved + 1)
                    rest).1.length : Nat) : Int) := by
            simp only [List.length_cons]
            push_cast
            ring
          rw [e1, e2]
          exact ih3
        · intro k hk
          cases k with
          | zero =>
            simp only [List.take_zero, recSizeSum_nil, add_zero, Nat.cast_zero,
              List.drop_zero]
            intro hstop
            rcases hstop with ⟨hs, hd⟩ | hnil | ⟨r', rest', heq, hrid⟩
            · rcases hcond with h | h
              · omega
              · omega
            · exact (List.cons_ne_nil r rest) hnil
            · cases heq
              exact hjust hrid
          | succ k =>
            simp only [List.length_cons, Nat.succ_lt_succ_iff] at hk
            simp only [List.take_succ_cons, recSizeSum_cons, List.drop_succ_cons]
            have e1 :
                sizeSaved + ((r.doc.objsize : Int) +
                    recSizeSum ((cappedLoop sizeOverCap docsOverCap justInserted
                      (sizeSaved + (r.doc.objsize : Int)) (docsRemoved + 1)
                      rest).1.take k)) =
                  (sizeSaved + (r.doc.objsize : Int)) +
                    recSizeSum ((cappedLoop sizeOverCap docsOverCap justInserted
                      (sizeSaved + (r.doc.objsize : Int)) (docsRemoved + 1)
                      rest).1.take k) := by
              ring
            have e2 : docsRemoved + ((k + 1 : Nat) : Int) = (docsRemoved + 1) + (k : Int) := by
              push_cast
              ring
            rw [e1, e2]
            exact ih4 k hk
    · have hres :
          cappedLoop sizeOverCap docsOverCap justInserted sizeSaved docsRemoved (r :: rest) =
            ([], r :: rest) := by
        simp only [cappedLoop]
        rw [if_neg hcond]
      rw [hres]
      push_neg at hcond
      refine ⟨rfl, by simp, ?_, ?_⟩
      · simp only [recSizeSum_nil, add_zero, List.length_nil, Nat.cast_zero]
        exact Or.inl ⟨hcond.1, hcond.2⟩
      · intro k hk
        simp at hk

/-- An eviction call either takes one of its three early returns, leaving
everything untouched, or runs the pass body. -/
theorem cappedDeleteAsNeeded_skip_or_pass (ctx : OpCtx) (c : Coll) (justInserted : Int)
    (st : Store) :
    cappedDeleteAsNeeded ctx c justInserted st = ⟨st, [], []⟩ ∨
    cappedDeleteAsNeeded ctx c justInserted st = cappedDeletePass c justInserted st := by
  unfold cappedDeleteAsNeeded
  split
  · exact Or.inl rfl
  · dsimp only
    split
    · exact Or.inl rfl
    · split
      · exact Or.inl rfl
      · exact Or.inr rfl

/-- The records an eviction pass deletes are either none (an early return) or
exactly what the deletion loop, started at zero accumulators, deletes. -/
theorem cappedDeleteAsNeeded_deleted_cases (ctx : OpCtx) (c : Coll) (justInserted : Int)
    (st : Store) :
    (cappedDeleteAsNeeded ctx c justInserted st).deleted = [] ∨
    ∃ so dc cands,
      (cappedDeleteAsNeeded ctx c justInserted st).deleted =
        (cappedLoop so dc justInserted 0 0 cands).1 := by
  rcases cappedDeleteAsNeeded_skip_or_pass ctx c justInserted st with h | h
  · rw [h]
    exact Or.inl rfl
  · rw [h]
    exact Or.inr ⟨_, _, _, rfl⟩

/-- C1: a capped eviction pass triggered by a write never deletes the record
whose id the triggering write just inserted, and the forward deletion loop
stops exactly when both over-cap amounts are satisfied, the cursor is
exhausted, or the next candidate is the just-inserted record: the final loop
state satisfies that stopping condition and no earlier iteration did. -/
theorem cappedDelete_spares_justInserted_and_stops_exactly
    (ctx : OpCtx) (c : Coll) (justInserted : Int) (st : Store)
    (sizeOverCap docsOverCap sizeSaved docsRemoved : Int) (recs : List Rec) :
    (∀ r ∈ (cappedDeleteAsNeeded ctx c justInserted st).deleted, r.rid ≠ justInserted) ∧
    (cappedLoop sizeOverCap docsOverCap justInserted sizeSaved docsRemoved recs).1 ++
      (cappedLoop sizeOverCap docsOverCap justInserted sizeSaved docsRemoved recs).2 =
      recs ∧
    (∀ r ∈ (cappedLoop sizeOverCap docsOverCap justInserted sizeSaved docsRemoved recs).1,
      r.rid ≠ justInserted) ∧
    evictionStopState sizeOverCap docsOverCap justInserted
      (sizeSaved +
        recSizeSum (cappedLoop sizeOverCap docsOverCap justInserted sizeSaved docsRemoved
          recs).1)
      (docsRemoved +
        ((cappedLoop sizeOverCap docsOverCap justInserted sizeSaved docsRemoved
          recs).1.length : Int))
      (cappedLoop sizeOverCap docsOverCap justInserted sizeSaved docsRemoved recs).2 ∧
    ∀ k : Nat,
      k < (cappedLoop sizeOverCap docsOverCap justInserted sizeSaved docsRemoved
        recs).1.length →
      ¬ evictionStopState sizeOverCap docsOverCap justInserted
        (sizeSaved +
          recSizeSum ((cappedLoop sizeOverCap docsOverCap justInserted sizeSaved docsRemoved
            recs).1.take k))
        (docsRemoved + (k : Int)) (recs.drop k) := by
  refine ⟨?_, cappedLoop_spec sizeOverCap docsOverCap justInserted recs sizeSaved docsRemoved⟩
  intro r hr
  rcases cappedDeleteAsNeeded_deleted_cases ctx c justInserted st with h | ⟨so, dc, cands, h⟩
  · rw [h] at hr
    simp at hr
  · rw [h] at hr
    exact (cappedLoop_spec so dc justInserted cands 0 0).2.1 r hr

/-- Witness for C1: a concrete over-cap capped collection where the pass does
delete a record, yet the just-inserted id 4 is never among the deletions. -/
theorem cappedDelete_spares_justInserted_witness :
    (cappedDeleteAsNeeded ⟨false, false, false, false, true, true, true, true⟩
        ⟨.ok none, none, none, true, 100, 0, false, false, false, false, false, false, false⟩
        4
        ⟨[⟨1, ⟨none, 30, 0⟩⟩, ⟨2, ⟨none, 30, 0⟩⟩, ⟨3, ⟨none, 30, 0⟩⟩, ⟨4, ⟨none, 30, 0⟩⟩],
          5, none, []⟩).deleted ≠ [] ∧
    ¬ (4 : Int) ∈
      ((cappedDeleteAsNeeded ⟨false, false, false, false, true, true, true, true⟩
        ⟨.ok none, none, none, true, 100, 0, false, false, false, false, false, false, false⟩
        4
        ⟨[⟨1, ⟨none, 30, 0⟩⟩, ⟨2, ⟨none, 30, 0⟩⟩, ⟨3, ⟨none, 30, 0⟩⟩, ⟨4, ⟨none, 30, 0⟩⟩],
          5, none, []⟩).deleted.map Rec.rid) := by
  constructor
  · decide
  · intro hmem
    obtain ⟨r, hr, hrid⟩ := List.mem_map.mp hmem
    exact (cappedDelete_spares_justInserted_and_stops_exactly
      ⟨false, false, false, false, true, true, true, true⟩
      ⟨.ok none, none, none, true, 100, 0, false, false, false, false, false, false, false⟩
      4
      ⟨[⟨1, ⟨none, 30, 0⟩⟩, ⟨2, ⟨none, 30, 0⟩⟩, ⟨3, ⟨none, 30, 0⟩⟩, ⟨4, ⟨none, 30, 0⟩⟩],
        5, none, []⟩
      0 0 0 0 []).1 r hr hrid

/-- When no early return fires (the collection is over cap, and the
behaviour-selection flags call for a deletion), the call runs the pass
body. -/
theorem cappedDeleteAsNeeded_eq_pass (ctx : OpCtx) (c : Coll) (justInserted : Int)
    (st : Store)
    (hNeed : cappedAndNeedDelete c st = true)
    (hNew : ctx.fcvAtLeast50 = true → ctx.enforcingConstraints = true)
    (hOld : ctx.fcvAtLeast50 = false → ctx.needsSizeAdjustment = true) :
    cappedDeleteAsNeeded ctx c justInserted st = cappedDeletePass c justInserted st := by
  unfold cappedDeleteAsNeeded
  cases hB : ctx.fcvAtLeast50 with
  | false => simp [hNeed, hB, hOld hB]
  | true => simp [hNeed, hB, hNew hB]

/-- C9: every capped eviction pass (i.e. every call that gets past the early
returns and runs the deletion loop) registers a rollback hook whose effect
on any store is exactly to clear the persisted resume position
`_cappedFirstRecord`, so an aborted unit of work cannot leave a stale resume
pointer that would make later evictions skip records never actually
deleted. -/
theorem cappedDelete_registers_resume_clearing_rollback_hook
    (ctx : OpCtx) (c : Coll) (justInserted : Int) (st : Store)
    (hNeed : cappedAndNeedDelete c st = true)
    (hNew : ctx.fcvAtLeast50 = true → ctx.enforcingConstraints = true)
    (hOld : ctx.fcvAtLeast50 = false → ctx.needsSizeAdjustment = true) :
    ∃ h ∈ (cappedDeleteAsNeeded ctx c justInserted st).onRollback,
      ∀ s : Store, h s = { s with cappedFirstRecord := none } := by
  rw [cappedDeleteAsNeeded_eq_pass ctx c justInserted st hNeed hNew hOld]
  exact ⟨fun s => { s with cappedFirstRecord := none }, List.Mem.head _, fun s => rfl⟩

/-- Witness for C9: on a concrete over-cap capped collection the eviction
pass registers the resume-clearing rollback hook. -/
theorem cappedDelete_rollback_hook_witness :
    cappedAndNeedDelete
      ⟨.ok none, none, none, true, 50, 0, false, false, false, false, false, false, false⟩
      ⟨[⟨1, ⟨none, 40, 0⟩⟩, ⟨2, ⟨none, 40, 0⟩⟩], 3, none, []⟩ = true ∧
    ∃ h ∈ (cappedDeleteAsNeeded ⟨false, false, false, false, true, true, true, true⟩
        ⟨.ok none, none, none, true, 50, 0, false, false, false, false, false, false, false⟩
        2
        ⟨[⟨1, ⟨none, 40, 0⟩⟩, ⟨2, ⟨none, 40, 0⟩⟩], 3, none, []⟩).onRollback,
      ∀ s : Store, h s = { s with cappedFirstRecord := none } :=
  ⟨by decide,
    cappedDelete_registers_resume_clearing_rollback_hook
      ⟨false, false, false, false, true, true, true, true⟩
      ⟨.ok none, none, none, true, 50, 0, false, false, false, false, false, false, false⟩
      2
      ⟨[⟨1, ⟨none, 40, 0⟩⟩, ⟨2, ⟨none, 40, 0⟩⟩], 3, none, []⟩
      (by decide) (by decide) (by decide)⟩

/-- C8: retiring a generation behaves by cases on the two tracked slots —
the tracked previous generation clears the previous slot, the tracked latest
generation promotes the previous generation to latest (the previous slot
itself is not cleared by the promotion), a generation in neither slot (one
kept alive only by readers) changes nothing, and a generation occupying both
slots empties the table. -/
theorem sharedState_instanceDeleted_cases (t : GenerationTable) (g : Nat) :
    (t.collectionPrev = some g → t.collectionLatest ≠ some g →
      instanceDeleted t g = ⟨t.collectionLatest, none⟩) ∧
    (t.collectionLatest = some g → t.collectionPrev ≠ some g →
      instanceDeleted t g = ⟨t.collectionPrev, t.collectionPrev⟩) ∧
    (t.collectionLatest ≠ some g → t.collectionPrev ≠ some g →
      instanceDeleted t g = t) ∧
    (t.collectionLatest = some g → t.collectionPrev = some g →
      instanceDeleted t g = ⟨none, none⟩) := by
  refine ⟨?_, ?_, ?_, ?_⟩
  · intro h1 h2
    simp [instanceDeleted, h1, h2]
  · intro h1 h2
    simp [instanceDeleted, h1, h2]
  · intro h1 h2
    simp [instanceDeleted, h1, h2]
  · intro h1 h2
    simp [instanceDeleted, h1, h2]

/-- Witness for C8: retiring the previous generation of a concrete table
clears the previous slot; retiring the latest then promotes. -/
theorem sharedState_instanceDeleted_witness :
    instanceDeleted ⟨some 2, some 1⟩ 1 = ⟨some 2, none⟩ ∧
    instanceDeleted ⟨some 2, some 1⟩ 2 = ⟨some 1, some 1⟩ ∧
    instanceDeleted ⟨some 2, some 1⟩ 3 = ⟨some 2, some 1⟩ :=
  ⟨(sharedState_instanceDeleted_cases ⟨some 2, some 1⟩ 1).1 (by decide) (by decide),
    (sharedState_instanceDeleted_cases ⟨some 2, some 1⟩ 2).2.1 (by decide) (by decide),
    (sharedState_instanceDeleted_cases ⟨some 2, some 1⟩ 3).2.2.1 (by decide) (by decide)⟩

/-- C3 counterexample: with a malformed stored validator, validation level
`off` and schema validation disabled for the operation, an insert is still
blocked by the stored compile status — `checkValidation` returns it before
consulting the level-off and validation-disabled short-circuits. -/
theorem nonOkValidator_blocks_even_when_off_counterexample :
    validationLevelOrDefault (some ValidationLevelEnum.off) = ValidationLevelEnum.off ∧
    (⟨true, false, false, false, true, true, true, true⟩ : OpCtx).schemaValidationDisabled =
      true ∧
    (insertDocuments ⟨true, false, false, false, true, true, true, true⟩
      ⟨.err 7, some .off, none, false, 0, 0, false, false, false, false, false, false, false⟩
      ⟨[], 1, none, []⟩ [⟨some 1, 10, 0⟩]).status = some (.validatorParseFailure 7) :=
  ⟨rfl, rfl, rfl⟩

/-- C3 (amended): a Validator whose compile status is non-OK causes
`checkValidation` to return that status unconditionally — the non-OK check
precedes the level-off and validation-disabled short-circuits — so any write
that consults `checkValidation` (a single-document insert shown) is blocked
by the compile status even at level `off` or with validation disabled. -/
theorem checkValidation_nonOkValidator_blocks
    (ctx : OpCtx) (c : Coll) (doc : BsonObj) (tag : Nat)
    (hval : c.validator = .err tag) :
    checkValidation ctx c doc = some (.validatorParseFailure tag) ∧
    (¬(c.hasIdIndex = true ∧ doc.id_ = none) →
      ∀ st : Store,
        insertDocuments ctx c st [doc] = ⟨some (.validatorParseFailure tag), st, []⟩) := by
  have h1 : checkValidation ctx c doc = some (.validatorParseFailure tag) := by
    unfold checkValidation
    rw [hval]
  refine ⟨h1, ?_⟩
  intro hid st
  unfold insertDocuments insertPreChecks
  rw [if_neg hid, h1]

/-- Witness for C3's amended theorem at a concrete malformed validator. -/
theorem checkValidation_nonOkValidator_blocks_witness :
    checkValidation ⟨false, false, false, false, true, true, true, true⟩
      ⟨.err 3, some .off, none, false, 0, 0, false, false, false, false, false, false, false⟩
      ⟨some 5, 10, 0⟩ = some (.validatorParseFailure 3) ∧
    insertDocuments ⟨false, false, false, false, true, true, true, true⟩
      ⟨.err 3, some .off, none, false, 0, 0, false, false, false, false, false, false, false⟩
      ⟨[], 1, none, []⟩ [⟨some 5, 10, 0⟩] =
      ⟨some (.validatorParseFailure 3), ⟨[], 1, none, []⟩, []⟩ :=
  ⟨(checkValidation_nonOkValidator_blocks
      ⟨false, false, false, false, true, true, true, true⟩
      ⟨.err 3, some .off, none, false, 0, 0, false, false, false, false, false, false, false⟩
      ⟨some 5, 10, 0⟩ 3 rfl).1,
    (checkValidation_nonOkValidator_blocks
      ⟨false, false, false, false, true, true, true, true⟩
      ⟨.err 3, some .off, none, false, 0, 0, false, false, false, false, false, false, false⟩
      ⟨some 5, 10, 0⟩ 3 rfl).2 (by decide) ⟨[], 1, none, []⟩⟩

/-- C7: a batch of more than one document into a capped collection that has
at least one index is refused with `OperationCannotBeBatched` before any
record is written: the store is returned untouched. -/
theorem insertDocuments_cappedIndexedBatchRefused
    (ctx : OpCtx) (c : Coll) (st : Store) (docs : List BsonObj)
    (hcap : c.isCapped = true) (hidx : c.haveAnyIndexes = true)
    (hlen : 1 < docs.length) :
    _insertDocuments ctx c st docs = ⟨some .operationCannotBeBatched, st, []⟩ := by
  unfold _insertDocuments
  simp [hcap, hidx, hlen]

/-- Witness for C7: a concrete two-document batch into a capped, indexed
collection is refused and the store is unchanged. -/
theorem insertDocuments_cappedIndexedBatchRefused_witness :
    1 < ([⟨some 1, 5, 0⟩, ⟨some 2, 5, 0⟩] : List BsonObj).length ∧
    _insertDocuments ⟨false, false, false, false, true, true, true, true⟩
      ⟨.ok none, none, none, true, 100, 0, false, true, true, false, false, false, false⟩
      ⟨[], 1, none, []⟩ [⟨some 1, 5, 0⟩, ⟨some 2, 5, 0⟩] =
      ⟨some .operationCannotBeBatched, ⟨[], 1, none, []⟩, []⟩ :=
  ⟨by decide,
    insertDocuments_cappedIndexedBatchRefused
      ⟨false, false, false, false, true, true, true, true⟩
      ⟨.ok none, none, none, true, 100, 0, false, true, true, false, false, false, false⟩
      ⟨[], 1, none, []⟩ [⟨some 1, 5, 0⟩, ⟨some 2, 5, 0⟩] rfl rfl (by decide)⟩

/-- C2: validation is monotone across updates — a document that currently
passes validation can never be updated into a failing value (the update
aborts with the failure, mutating nothing) at any level, while a currently
failing old document under a non-strict level passes the validation gate
regardless of the new document, and the update succeeds whenever the `_id`
and capped-size checks also pass. -/
theorem updateDocument_validation_monotone
    (ctx : OpCtx) (c : Coll) (st : Store) (loc : Int) (oldDoc newDoc : BsonObj)
    (indexesAffected : Bool) (e : ErrorCode) :
    (checkValidation ctx c oldDoc = none → checkValidation ctx c newDoc = some e →
      updateDocument ctx c st loc oldDoc newDoc indexesAffected = (.error e, st)) ∧
    (checkValidation ctx c oldDoc = some e →
      validationLevelOrDefault c.validationLevel ≠ .strict →
      updateValidationGate ctx c oldDoc newDoc = none ∧
      (idMismatch oldDoc newDoc = false →
        (c.isCapped && decide (oldDoc.objsize ≠ newDoc.objsize)) = false →
        (updateDocument ctx c st loc oldDoc newDoc indexesAffected).1 = .ok loc)) := by
  constructor
  · intro hold hnew
    have hgate : updateValidationGate ctx c oldDoc newDoc = some e := by
      unfold updateValidationGate
      rw [hnew]
      dsimp only
      split
      · rfl
      · rw [hold]
    unfold updateDocument
    rw [hgate]
  · intro hold hlvl
    have hgate : updateValidationGate ctx c oldDoc newDoc = none := by
      unfold updateValidationGate
      cases hnew : checkValidation ctx c newDoc with
      | none => rfl
      | some s =>
        dsimp only
        rw [if_neg hlvl, hold]
    refine ⟨hgate, ?_⟩
    intro hid hsz
    have hP : ¬(c.isCapped = true ∧ ¬oldDoc.objsize = newDoc.objsize) := by
      intro hand
      rw [hand.1] at hsz
      simp at hsz
      exact hand.2 hsz
    unfold updateDocument
    rw [hgate]
    simp [hid, hP]

/-- Witness for C2: a concrete passing old document updated to a failing new
value aborts with the validation failure and leaves the store unchanged. -/
theorem updateDocument_validation_monotone_witness :
    checkValidation ⟨false, false, false, false, true, true, true, true⟩
      ⟨.ok (some fun d => d.payload == 0), none, none, false, 0, 0, false, false, false,
        false, false, false, false⟩ ⟨some 1, 10, 0⟩ = none ∧
    checkValidation ⟨false, false, false, false, true, true, true, true⟩
      ⟨.ok (some fun d => d.payload == 0), none, none, false, 0, 0, false, false, false,
        false, false, false, false⟩ ⟨some 1, 10, 1⟩ =
      some (.documentValidationFailure true) ∧
    updateDocument ⟨false, false, false, false, true, true, true, true⟩
      ⟨.ok (some fun d => d.payload == 0), none, none, false, 0, 0, false, false, false,
        false, false, false, false⟩
      ⟨[⟨1, ⟨some 1, 10, 0⟩⟩], 2, none, []⟩ 1 ⟨some 1, 10, 0⟩ ⟨some 1, 10, 1⟩ false =
      (.error (.documentValidationFailure true), ⟨[⟨1, ⟨some 1, 10, 0⟩⟩], 2, none, []⟩) :=
  ⟨rfl, rfl,
    (updateDocument_validation_monotone ⟨false, false, false, false, true, true, true, true⟩
      ⟨.ok (some fun d => d.payload == 0), none, none, false, 0, 0, false, false, false,
        false, false, false, false⟩
      ⟨[⟨1, ⟨some 1, 10, 0⟩⟩], 2, none, []⟩ 1 ⟨some 1, 10, 0⟩ ⟨some 1, 10, 1⟩ false
      (.documentValidationFailure true)).1 rfl rfl⟩

/-- The API-compatibility check produces only API-flavoured statuses. -/
theorem apiCompat_ne_numbered (ctx : OpCtx) (c : Coll) (n : Nat) :
    checkValidatorAPIVersionCompatability ctx c ≠ some (.numbered n) := by
  unfold checkValidatorAPIVersionCompatability
  split
  · simp
  · split
    · simp
    · simp

/-- `checkValidation` can only produce validation-flavoured statuses, never a
bare `uasserted` numeric code such as 13596. -/
theorem checkValidation_ne_numbered (ctx : OpCtx) (c : Coll) (d : BsonObj) (n : Nat) :
    checkValidation ctx c d ≠ some (.numbered n) := by
  intro h
  unfold checkValidation at h
  cases hval : c.validator with
  | err tag =>
    rw [hval] at h
    simp at h
  | ok filt =>
    rw [hval] at h
    cases filt with
    | none => simp at h
    | some f =>
      dsimp only at h
      split at h
      · exact Option.noConfusion h
      · split at h
        · exact Option.noConfusion h
        · split at h
          · exact Option.noConfusion h
          · split at h
            · rename_i e heq
              rw [Option.some_inj] at h
              rw [h] at heq
              exact apiCompat_ne_numbered ctx c n heq
            · split at h
              · exact Option.noConfusion h
              · split at h
                · exact Option.noConfusion h
                · rw [Option.some_inj] at h
                  exact ErrorCode.noConfusion h

/-- The update-time validation gate inherits the same property: it never
produces a bare numeric code. -/
theorem updateValidationGate_ne_numbered (ctx : OpCtx) (c : Coll) (oldDoc newDoc : BsonObj)
    (n : Nat) : updateValidationGate ctx c oldDoc newDoc ≠ some (.numbered n) := by
  intro h
  unfold updateValidationGate at h
  cases hnew : checkValidation ctx c newDoc with
  | none =>
    rw [hnew] at h
    simp at h
  | some s =>
    rw [hnew] at h
    dsimp only at h
    split at h
    · rw [Option.some_inj] at h
      rw [h] at hnew
      exact checkValidation_ne_numbered ctx c newDoc n hnew
    · cases hold : checkValidation ctx c oldDoc with
      | none =>
        rw [hold] at h
        dsimp only at h
        rw [Option.some_inj] at h
        rw [h] at hnew
        exact checkValidation_ne_numbered ctx c newDoc n hnew
      | some s2 =>
        rw [hold] at h
        simp at h

/-- C10: the `_id` mismatch check of `updateDocument` is skipped when the old
document has no `_id` element — the fixed code 13596 can then never be
raised, and the update may succeed with an arbitrary `_id` in the new
document; conversely, whenever 13596 is raised the old document had an `_id`
element differing from the new document's. -/
theorem updateDocument_idCheck_skipped_without_old_id
    (ctx : OpCtx) (c : Coll) (st : Store) (loc : Int) (oldDoc newDoc : BsonObj)
    (indexesAffected : Bool) :
    (oldDoc.id_ = none →
      (updateDocument ctx c st loc oldDoc newDoc indexesAffected).1 ≠
        .error (.numbered 13596) ∧
      (updateValidationGate ctx c oldDoc newDoc = none →
        (c.isCapped && decide (oldDoc.objsize ≠ newDoc.objsize)) = false →
        (updateDocument ctx c st loc oldDoc newDoc indexesAffected).1 = .ok loc)) ∧
    ((updateDocument ctx c st loc oldDoc newDoc indexesAffected).1 =
        .error (.numbered 13596) →
      ∃ i, oldDoc.id_ = some i ∧ newDoc.id_ ≠ some i) := by
  constructor
  · intro hnone
    have hid : idMismatch oldDoc newDoc = false := by
      unfold idMismatch
      rw [hnone]
    constructor
    · intro h
      unfold updateDocument at h
      cases hgate : updateValidationGate ctx c oldDoc newDoc with
      | some e =>
        rw [hgate] at h
        simp at h
        exact updateValidationGate_ne_numbered ctx c oldDoc newDoc 13596 (h ▸ hgate)
      | none =>
        rw [hgate] at h
        dsimp only at h
        rw [if_neg (by simp [hid])] at h
        split at h <;> simp at h
    · intro hgate hsz
      have hP : ¬(c.isCapped = true ∧ ¬oldDoc.objsize = newDoc.objsize) := by
        intro hand
        rw [hand.1] at hsz
        simp at hsz
        exact hand.2 hsz
      unfold updateDocument
      rw [hgate]
      simp [hid, hP]
  · intro h
    unfold updateDocument at h
    cases hgate : updateValidationGate ctx c oldDoc newDoc with
    | some e =>
      rw [hgate] at h
      simp at h
      exact absurd (h ▸ hgate) (updateValidationGate_ne_numbered ctx c oldDoc newDoc 13596)
    | none =>
      rw [hgate] at h
      dsimp only at h
      by_cases hid : idMismatch oldDoc newDoc = true
      · unfold idMismatch at hid
        cases hold : oldDoc.id_ with
        | none =>
          rw [hold] at hid
          simp at hid
        | some i =>
          rw [hold] at hid
          simp at hid
          exact ⟨i, rfl, hid⟩
      · have hid' : idMismatch oldDoc newDoc = false := by
          cases hb : idMismatch oldDoc newDoc
          · rfl
          · exact absurd hb hid
        rw [if_neg (by simp [hid'])] at h
        split at h <;> simp at h

/-- Witness for C10: a concrete update whose old document has no `_id` and
whose new document introduces one succeeds (no 13596). -/
theorem updateDocument_idCheck_skipped_witness :
    (updateDocument ⟨false, false, false, false, true, true, true, true⟩
      ⟨.ok none, none, none, false, 0, 0, false, false, false, false, false, false, false⟩
      ⟨[⟨1, ⟨none, 10, 0⟩⟩], 2, none, []⟩ 1 ⟨none, 10, 0⟩ ⟨some 9, 10, 0⟩ false).1 ≠
      .error (.numbered 13596) ∧
    (updateDocument ⟨false, false, false, false, true, true, true, true⟩
      ⟨.ok none, none, none, false, 0, 0, false, false, false, false, false, false, false⟩
      ⟨[⟨1, ⟨none, 10, 0⟩⟩], 2, none, []⟩ 1 ⟨none, 10, 0⟩ ⟨some 9, 10, 0⟩ false).1 =
      .ok 1 :=
  ⟨((updateDocument_idCheck_skipped_without_old_id
      ⟨false, false, false, false, true, true, true, true⟩
      ⟨.ok none, none, none, false, 0, 0, false, false, false, false, false, false, false⟩
      ⟨[⟨1, ⟨none, 10, 0⟩⟩], 2, none, []⟩ 1 ⟨none, 10, 0⟩ ⟨some 9, 10, 0⟩ false).1 rfl).1,
    ((updateDocument_idCheck_skipped_without_old_id
      ⟨false, false, false, false, true, true, true, true⟩
      ⟨.ok none, none, none, false, 0, 0, false, false, false, false, false, false, false⟩
      ⟨[⟨1, ⟨none, 10, 0⟩⟩], 2, none, []⟩ 1 ⟨none, 10, 0⟩ ⟨some 9, 10, 0⟩ false).1 rfl).2
      rfl rfl⟩

/-- C4 counterexample: a size-changing update on a capped collection whose
validator (at the default strict level) rejects the new document fails with
the validation failure, not with `CannotGrowDocumentInCappedNamespace` — the
validation block precedes the capped size check, so the failure code does
depend on the validator's outcome. -/
theorem cappedSizeChange_error_code_counterexample :
    (⟨.ok (some fun d => d.payload == 0), none, none, true, 1000, 0, false, false, false,
      false, false, false, false⟩ : Coll).isCapped = true ∧
    (⟨some 1, 10, 0⟩ : BsonObj).objsize ≠ (⟨some 1, 20, 1⟩ : BsonObj).objsize ∧
    (updateDocument ⟨false, false, false, false, true, true, true, true⟩
      ⟨.ok (some fun d => d.payload == 0), none, none, true, 1000, 0, false, false, false,
        false, false, false, false⟩
      ⟨[⟨1, ⟨some 1, 10, 0⟩⟩], 2, none, []⟩ 1 ⟨some 1, 10, 0⟩ ⟨some 1, 20, 1⟩ false).1 =
      .error (.documentValidationFailure true) ∧
    ErrorCode.documentValidationFailure true ≠
      ErrorCode.cannotGrowDocumentInCappedNamespace :=
  ⟨rfl, by decide, rfl, by decide⟩

/-- C4 (amended): a size-changing update on a capped collection always fails
and leaves the store untouched; the failure is
`CannotGrowDocumentInCappedNamespace` whenever the earlier checks — the
validation gate and the `_id` mismatch check — pass. -/
theorem updateDocument_cappedSizeChange_always_fails
    (ctx : OpCtx) (c : Coll) (st : Store) (loc : Int) (oldDoc newDoc : BsonObj)
    (indexesAffected : Bool)
    (hcap : c.isCapped = true) (hsz : oldDoc.objsize ≠ newDoc.objsize) :
    (∃ e, updateDocument ctx c st loc oldDoc newDoc indexesAffected = (.error e, st)) ∧
    (updateValidationGate ctx c oldDoc newDoc = none → idMismatch oldDoc newDoc = false →
      updateDocument ctx c st loc oldDoc newDoc indexesAffected =
        (.error .cannotGrowDocumentInCappedNamespace, st)) := by
  have hcond : (c.isCapped && decide (oldDoc.objsize ≠ newDoc.objsize)) = true := by
    simp [hcap, hsz]
  constructor
  · cases hgate : updateValidationGate ctx c oldDoc newDoc with
    | some e =>
      refine ⟨e, ?_⟩
      unfold updateDocument
      rw [hgate]
    | none =>
      by_cases hid : idMismatch oldDoc newDoc = true
      · refine ⟨.numbered 13596, ?_⟩
        unfold updateDocument
        rw [hgate]
        dsimp only
        rw [if_pos (by simp [hid])]
      · have hid' : idMismatch oldDoc newDoc = false := by
          cases hb : idMismatch oldDoc newDoc
          · rfl
          · exact absurd hb hid
        refine ⟨.cannotGrowDocumentInCappedNamespace, ?_⟩
        unfold updateDocument
        rw [hgate]
        dsimp only
        rw [if_neg (by simp [hid']), if_pos (by simp [hcap, hsz])]
  · intro hgate hid
    unfold updateDocument
    rw [hgate]
    dsimp only
    rw [if_neg (by simp [hid]), if_pos (by simp [hcap, hsz])]

/-- Witness for C4's amended theorem: a concrete capped, validator-free
collection rejects a size-changing update with
`CannotGrowDocumentInCappedNamespace` and changes nothing. -/
theorem updateDocument_cappedSizeChange_witness :
    (⟨.ok none, none, none, true, 1000, 0, false, false, false, false, false, false,
      false⟩ : Coll).isCapped = true ∧
    updateDocument ⟨false, false, false, false, true, true, true, true⟩
      ⟨.ok none, none, none, true, 1000, 0, false, false, false, false, false, false, false⟩
      ⟨[⟨1, ⟨some 1, 10, 0⟩⟩], 2, none, []⟩ 1 ⟨some 1, 10, 0⟩ ⟨some 1, 12, 0⟩ true =
      (.error .cannotGrowDocumentInCappedNamespace, ⟨[⟨1, ⟨some 1, 10, 0⟩⟩], 2, none, []⟩) :=
  ⟨rfl,
    (updateDocument_cappedSizeChange_always_fails
      ⟨false, false, false, false, true, true, true, true⟩
      ⟨.ok none, none, none, true, 1000, 0, false, false, false, false, false, false, false⟩
      ⟨[⟨1, ⟨some 1, 10, 0⟩⟩], 2, none, []⟩ 1 ⟨some 1, 10, 0⟩ ⟨some 1, 12, 0⟩ true
      rfl (by decide)).2 rfl rfl⟩

/-- C5 counterexample: an update whose old document has no `_id` element at
all succeeds even though the new document carries an `_id`, so a successful
update's new `_id` need not equal the old document's (absent) `_id`. -/
theorem updateDocument_id_change_counterexample :
    (⟨none, 10, 0⟩ : BsonObj).id_ = none ∧
    (⟨some 7, 10, 0⟩ : BsonObj).id_ ≠ (⟨none, 10, 0⟩ : BsonObj).id_ ∧
    (updateDocument ⟨false, false, false, false, true, true, true, true⟩
      ⟨.ok none, none, none, false, 0, 0, false, false, false, false, false, false, false⟩
      ⟨[⟨1, ⟨none, 10, 0⟩⟩], 2, none, []⟩ 1 ⟨none, 10, 0⟩ ⟨some 7, 10, 0⟩ false).1 =
      .ok 1 :=
  ⟨rfl, by decide, rfl⟩

/-- C5 (amended): whenever the old document carries an `_id` element, every
successful update preserves it, and an update that would change it fails
with the fixed code 13596 (once the validation gate passes, which runs
first) and applies no mutation to the record store or the indexes. -/
theorem updateDocument_id_immutable_when_old_has_id
    (ctx : OpCtx) (c : Coll) (st : Store) (loc : Int) (oldDoc newDoc : BsonObj)
    (indexesAffected : Bool) (i : Int) :
    (∀ r, (updateDocument ctx c st loc oldDoc newDoc indexesAffected).1 = .ok r →
      oldDoc.id_ = some i → newDoc.id_ = some i) ∧
    (oldDoc.id_ = some i → newDoc.id_ ≠ some i →
      updateValidationGate ctx c oldDoc newDoc = none →
      updateDocument ctx c st loc oldDoc newDoc indexesAffected =
        (.error (.numbered 13596), st)) := by
  constructor
  · intro r h hold
    unfold updateDocument at h
    cases hgate : updateValidationGate ctx c oldDoc newDoc with
    | some e =>
      rw [hgate] at h
      simp at h
    | none =>
      rw [hgate] at h
      dsimp only at h
      by_cases hid : idMismatch oldDoc newDoc = true
      · rw [if_pos (by simp [hid])] at h
        simp at h
      · have hid' : idMismatch oldDoc newDoc = false := by
          cases hb : idMismatch oldDoc newDoc
          · rfl
          · exact absurd hb hid
        unfold idMismatch at hid'
        rw [hold] at hid'
        simp at hid'
        exact hid'
  · intro hold hne hgate
    have hid : idMismatch oldDoc newDoc = true := by
      unfold idMismatch
      rw [hold]
      simp [hne]
    unfold updateDocument
    rw [hgate]
    dsimp only
    rw [if_pos (by simp [hid])]

/-- Witness for C5's amended theorem: a concrete attempt to change `_id`
from 1 to 2 fails with code 13596 and leaves the store unchanged. -/
theorem updateDocument_id_immutable_witness :
    (⟨some 1, 10, 0⟩ : BsonObj).id_ = some 1 ∧
    (⟨some 2, 10, 0⟩ : BsonObj).id_ ≠ some 1 ∧
    updateDocument ⟨false, false, false, false, true, true, true, true⟩
      ⟨.ok none, none, none, false, 0, 0, false, false, false, false, false, false, false⟩
      ⟨[⟨1, ⟨some 1, 10, 0⟩⟩], 2, none, []⟩ 1 ⟨some 1, 10, 0⟩ ⟨some 2, 10, 0⟩ true =
      (.error (.numbered 13596), ⟨[⟨1, ⟨some 1, 10, 0⟩⟩], 2, none, []⟩) :=
  ⟨rfl, by decide,
    (updateDocument_id_immutable_when_old_has_id
      ⟨false, false, false, false, true, true, true, true⟩
      ⟨.ok none, none, none, false, 0, 0, false, false, false, false, false, false, false⟩
      ⟨[⟨1, ⟨some 1, 10, 0⟩⟩], 2, none, []⟩ 1 ⟨some 1, 10, 0⟩ ⟨some 2, 10, 0⟩ true 1).2
      rfl (by decide) rfl⟩

/-- If, with an `_id` index present, some batch document lacks `_id`, the
pre-check loop fails on some document. -/
theorem insertPreChecks_some_of_missingId (ctx : OpCtx) (c : Coll)
    (hIdx : c.hasIdIndex = true) :
    ∀ (docs : List BsonObj) (d : BsonObj), d ∈ docs → d.id_ = none →
      ∃ e, insertPreChecks ctx c docs = some e := by
  intro docs
  induction docs with
  | nil =>
    intro d hd
    simp at hd
  | cons a rest ih =>
    intro d hd hnone
    unfold insertPreChecks
    by_cases ha : c.hasIdIndex = true ∧ a.id_ = none
    · rw [if_pos ha]
      exact ⟨.internalError, rfl⟩
    · rw [if_neg ha]
      cases hv : checkValidation ctx c a with
      | some e => exact ⟨e, rfl⟩
      | none =>
        rcases List.mem_cons.mp hd with h | h
        · subst h
          exact absurd ⟨hIdx, hnone⟩ ha
        · exact ih d h hnone

/-- The pre-check loop skips over a leading run of documents that pass both
the `_id` presence check and validation. -/
theorem insertPreChecks_append_pass (ctx : OpCtx) (c : Coll) :
    ∀ (pre docs : List BsonObj),
      (∀ dp ∈ pre, ¬(c.hasIdIndex = true ∧ dp.id_ = none) ∧
        checkValidation ctx c dp = none) →
      insertPreChecks ctx c (pre ++ docs) = insertPreChecks ctx c docs := by
  intro pre
  induction pre with
  | nil =>
    intro docs h
    rfl
  | cons a rest ih =>
    intro docs h
    have ha := h a (List.mem_cons_self a rest)
    rw [List.cons_append]
    conv_lhs => simp only [insertPreChecks]
    rw [if_neg ha.1, ha.2]
    exact ih docs (fun dp hdp => h dp (List.mem_cons_of_mem a hdp))

/-- C6 counterexample: in a two-document batch whose first document fails
validation and whose second lacks `_id`, the insert fails with the
validation failure, not the missing-key (`InternalError` \x22document without
_id\x22) error — so a batch containing an `_id`-less document does not always
fail with the missing-key error. -/
theorem insertDocuments_missingId_error_counterexample :
    (⟨.ok (some fun d => d.payload == 0), none, none, false, 0, 0, false, true, true,
      false, false, false, false⟩ : Coll).hasIdIndex = true ∧
    (⟨none, 10, 0⟩ : BsonObj).id_ = none ∧
    (⟨none, 10, 0⟩ : BsonObj) ∈ [(⟨some 1, 10, 1⟩ : BsonObj), ⟨none, 10, 0⟩] ∧
    (insertDocuments ⟨false, false, false, false, true, true, true, true⟩
      ⟨.ok (some fun d => d.payload == 0), none, none, false, 0, 0, false, true, true,
        false, false, false, false⟩
      ⟨[], 1, none, []⟩ [⟨some 1, 10, 1⟩, ⟨none, 10, 0⟩]).status =
      some (.documentValidationFailure true) ∧
    ErrorCode.documentValidationFailure true ≠ ErrorCode.internalError :=
  ⟨rfl, rfl, by simp, rfl, by decide⟩

/-- C6 (amended): a batch containing a document without `_id`, inserted into
a collection with an `_id` index, always fails before any record or index
entry is written (the store is returned untouched, no hooks registered); the
error is the missing-key `InternalError` whenever every document ahead of
the `_id`-less one passes its own pre-checks — an earlier document failing
validation otherwise supplies the error. -/
theorem insertDocuments_missingId_fails_before_writing
    (ctx : OpCtx) (c : Coll) (st : Store) (docs : List BsonObj) (d : BsonObj)
    (hIdx : c.hasIdIndex = true) (hmem : d ∈ docs) (hnone : d.id_ = none) :
    (∃ e, (insertDocuments ctx c st docs).status = some e) ∧
    (insertDocuments ctx c st docs).st = st ∧
    (insertDocuments ctx c st docs).onRollback = [] ∧
    (∀ pre rest, docs = pre ++ d :: rest →
      (∀ dp ∈ pre, dp.id_ ≠ none ∧ checkValidation ctx c dp = none) →
      (insertDocuments ctx c st docs).status = some .internalError) := by
  obtain ⟨e, he⟩ := insertPreChecks_some_of_missingId ctx c hIdx docs d hmem hnone
  have hins : insertDocuments ctx c st docs = ⟨some e, st, []⟩ := by
    unfold insertDocuments
    rw [he]
  refine ⟨⟨e, by rw [hins]⟩, by rw [hins], by rw [hins], ?_⟩
  intro pre rest heq hpre
  have hp : ∀ dp ∈ pre, ¬(c.hasIdIndex = true ∧ dp.id_ = none) ∧
      checkValidation ctx c dp = none :=
    fun dp hdp => ⟨fun hc => (hpre dp hdp).1 hc.2, (hpre dp hdp).2⟩
  have hchecks : insertPreChecks ctx c docs = some .internalError := by
    rw [heq, insertPreChecks_append_pass ctx c pre (d :: rest) hp]
    unfold insertPreChecks
    rw [if_pos ⟨hIdx, hnone⟩]
  unfold insertDocuments
  rw [hchecks]

/-- Witness for C6's amended theorem: a batch of a valid document followed by
an `_id`-less one fails with the missing-key error, writing nothing. -/
theorem insertDocuments_missingId_witness :
    (insertDocuments ⟨false, false, false, false, true, true, true, true⟩
      ⟨.ok (some fun d => d.payload == 0), none, none, false, 0, 0, false, true, true,
        false, false, false, false⟩
      ⟨[], 1, none, []⟩ [⟨some 1, 10, 0⟩, ⟨none, 10, 0⟩]).status =
      some .internalError ∧
    (insertDocuments ⟨false, false, false, false, true, true, true, true⟩
      ⟨.ok (some fun d => d.payload == 0), none, none, false, 0, 0, false, true, true,
        false, false, false, false⟩
      ⟨[], 1, none, []⟩ [⟨some 1, 10, 0⟩, ⟨none, 10, 0⟩]).st = ⟨[], 1, none, []⟩ :=
  have h := insertDocuments_missingId_fails_before_writing
    ⟨false, false, false, false, true, true, true, true⟩
    ⟨.ok (some fun d => d.payload == 0), none, none, false, 0, 0, false, true, true,
      false, false, false, false⟩
    ⟨[], 1, none, []⟩ [⟨some 1, 10, 0⟩, ⟨none, 10, 0⟩] ⟨none, 10, 0⟩
    rfl (by simp) rfl
  ⟨h.2.2.2 [⟨some 1, 10, 0⟩] [] rfl
    (by
      intro dp hdp
      simp at hdp
      subst hdp
      exact ⟨by decide, rfl⟩),
    h.2.1⟩
